import Mathlib

/-
Verification of the Dropbox storage adapter (cloud/storage/dropbox/dropbox.go).

The adapter translates an abstract blob-store interface (Download, Put,
Delete, List, LinkBase) into HTTP requests against the Dropbox REST API.
The HTTP transport is modelled as a function from requests to transport
results; the adapter's request construction, response classification and
JSON envelope handling are embedded directly from the Go source.
-/

/-- JSON values, as consumed when decoding Dropbox API response bodies. -/
inductive Json where
  | null
  | str (s : String)
  | num (n : Int)
  | bool (b : Bool)
  | arr (elems : List Json)
  | obj (fields : List (String × Json))

/-- Lowercase hexadecimal digit, as used by Go's JSON string escaper. -/
def hexDigit (n : Nat) : Char :=
  if n < 10 then Char.ofNat (48 + n) else Char.ofNat (87 + n)

/-- Escape one character the way Go's encoding/json escapes characters
inside a JSON string (HTML escaping enabled, as json.Marshal does). -/
def jsonEscapeChar (c : Char) : String :=
  if c = '"' then "\\\""
  else if c = '\\' then "\\\\"
  else if c = '\n' then "\\n"
  else if c = '\r' then "\\r"
  else if c = '\t' then "\\t"
  else if c = '<' ∨ c = '>' ∨ c = '&' then
    "\\u00" ++ String.mk [hexDigit (c.toNat / 16), hexDigit (c.toNat % 16)]
  else if c.toNat < 32 then
    "\\u00" ++ String.mk [hexDigit (c.toNat / 16), hexDigit (c.toNat % 16)]
  else if c.toNat = 8232 ∨ c.toNat = 8233 then
    "\\u202" ++ String.mk [hexDigit (c.toNat % 16)]
  else String.singleton c

/-- Render a string as a quoted JSON string literal, as Go's json.Marshal
does for a string-typed struct field. -/
def jsonQuote (s : String) : String :=
  "\"" ++ String.join (s.data.map jsonEscapeChar) ++ "\""

/-- Body of an HTTP response: either text that is not valid JSON, or a
parsed JSON value. Download treats it as opaque bytes; the 409 and List
paths decode it. -/
inductive RespBody where
  | malformed (raw : String)
  | json (v : Json)

/-- Last-occurrence lookup of an object key: Go's json decoder lets a
duplicate key overwrite the earlier one. -/
def jsonLookup (fields : List (String × Json)) (key : String) : Option Json :=
  (fields.reverse).lookup key

/-- Decode a string-typed struct field from a JSON object, following Go
json.Unmarshal: a missing field or a JSON null leaves the zero value, a
string sets it, and any other JSON type is a decoding error. -/
def decodeStringField (fields : List (String × Json)) (key : String) : Except Unit String :=
  match jsonLookup fields key with
  | none => .ok ""
  | some .null => .ok ""
  | some (.str s) => .ok s
  | some _ => .error ()

/-- Decode an integer-typed struct field (Go int32/int64), following Go
json.Unmarshal. -/
def decodeIntField (fields : List (String × Json)) (key : String) : Except Unit Int :=
  match jsonLookup fields key with
  | none => .ok 0
  | some .null => .ok 0
  | some (.num n) => .ok n
  | some _ => .error ()

/-- Decode a bool-typed struct field, following Go json.Unmarshal. -/
def decodeBoolField (fields : List (String × Json)) (key : String) : Except Unit Bool :=
  match jsonLookup fields key with
  | none => .ok false
  | some .null => .ok false
  | some (.bool b) => .ok b
  | some _ => .error ()

/-- DropboxAPIError from dropbox.go: the structured error body Dropbox
sends with HTTP 409, carrying the field tagged error_summary. -/
structure DropboxAPIError where
  errorSummary : String

/-- Contiguous-substring scan over character lists. -/
def listContainsSub : List Char → List Char → Bool
  | [], sub => sub.isEmpty
  | c :: t, sub => sub.isPrefixOf (c :: t) || listContainsSub t sub

/-- Substring test, modelling Go's strings.Contains. -/
def strContains (s sub : String) : Bool :=
  listContainsSub s.data sub.data

/-- StatusCode from dropbox.go: reports 404 when the error summary contains
the substring not_found, and 0 otherwise. -/
def DropboxAPIError.statusCode (e : DropboxAPIError) : Nat :=
  if strContains e.errorSummary "not_found" then 404 else 0

/-- Go json.Unmarshal of a response body into DropboxAPIError: fails on
malformed text or on a body that is not an object with a string (or
absent) error_summary; a JSON null leaves the zero value. -/
def unmarshalDropboxAPIError : RespBody → Except Unit DropboxAPIError
  | .malformed _ => .error ()
  | .json .null => .ok ⟨""⟩
  | .json (.obj fields) =>
    match decodeStringField fields "error_summary" with
    | .error _ => .error ()
    | .ok s => .ok ⟨s⟩
  | .json _ => .error ()

/-- One entry of the list_folder response: fields tagged name and size in
the anonymous struct inside List. -/
structure ListEntry where
  name : String
  size : Int

/-- The anonymous response struct inside List: fields tagged entries,
cursor and has_more. -/
structure ListFolderResult where
  items : List ListEntry
  nextPageToken : String
  more : Bool

/-- Decode one element of the entries array, following Go json.Unmarshal
into the element struct. -/
def unmarshalListEntry : Json → Except Unit ListEntry
  | .null => .ok ⟨"", 0⟩
  | .obj fields => do
    let n ← decodeStringField fields "name"
    let s ← decodeIntField fields "size"
    .ok ⟨n, s⟩
  | _ => .error ()

/-- Decode the entries field: absent or null leaves the zero slice, an
array decodes element-wise, anything else is a decoding error. -/
def unmarshalEntries (fields : List (String × Json)) : Except Unit (List ListEntry) :=
  match jsonLookup fields "entries" with
  | none => .ok []
  | some .null => .ok []
  | some (.arr xs) => xs.mapM unmarshalListEntry
  | some _ => .error ()

/-- Go json.Unmarshal of a response body into the List response struct.
Go records a field type error and returns it after decoding; since every
caller bails out on a non-nil error, short-circuiting is observationally
the same. -/
def unmarshalListFolderResult : RespBody → Except Unit ListFolderResult
  | .malformed _ => .error ()
  | .json .null => .ok ⟨[], "", false⟩
  | .json (.obj fields) => do
    let items ← unmarshalEntries fields
    let cursor ← decodeStringField fields "cursor"
    let more ← decodeBoolField fields "has_more"
    .ok ⟨items, cursor, more⟩
  | .json _ => .error ()

/-- An HTTP request as built by newRequest in dropbox.go. -/
structure HttpRequest where
  method : String
  url : String
  headers : List (String × String)
  body : Option String

/-- An HTTP response delivered by the transport, its body fully read. -/
structure HttpResponse where
  statusCode : Nat
  body : RespBody

/-- Outcome of one round trip of http.Client.Do plus ioutil.ReadAll:
either a transport-level failure (Do error or body read error), or a
response with its status code and full body. -/
inductive TransportResult where
  | failure
  | response (resp : HttpResponse)

/-- The HTTP transport, abstracting http.Client for the adapter. -/
def Transport : Type := HttpRequest → TransportResult

/-- Error kinds of the upspin errors package used by the adapter. -/
inductive ErrKind where
  | other
  | invalid
  | notExist
  | io

/-- The plain Go error values that flow through the adapter. -/
inductive GoError where
  | transportFailure
  | jsonDecode
  | dropboxAPI (e : DropboxAPIError)
  | httpStatus (status : Nat) (body : RespBody)
  | errNotSupported
  | message (msg : String)

/-- An error built by errors.E(op, kind, err). -/
structure UpspinError where
  op : String
  kind : ErrKind
  cause : GoError

/-- The adapter state: the bearer token held for its lifetime. The HTTP
client (http.DefaultClient in the source) is passed to each operation as
the Transport. -/
structure DropboxImpl where
  token : String

/-- Key of the dial option carrying the bearer token (const apiToken). -/
def apiToken : String := "token"

/-- Options bag of the storage.Storage dial options: Go's
map of string to string, as an association list with unique keys. -/
structure StorageOpts where
  opts : List (String × String)

def newOp : String := "cloud/storage/dropbox.New"
def downloadOp : String := "cloud/storage/dropbox.Download"
def putOp : String := "cloud/storage/dropbox.Put"
def deleteOp : String := "cloud/storage/dropbox.Delete"

/-- New from dropbox.go: requires the token option to be present in the
options map and otherwise returns the adapter. No Transport is involved:
construction performs no network call. -/
def New (o : StorageOpts) : Except UpspinError DropboxImpl :=
  match o.opts.lookup apiToken with
  | none => .error ⟨newOp, .invalid, .message ("\"" ++ apiToken ++ "\" option is required")⟩
  | some tok => .ok ⟨tok⟩

/-- LinkBase from dropbox.go: returns the empty base and
upspin.ErrNotSupported. -/
def DropboxImpl.LinkBase (_d : DropboxImpl) : String × Option GoError :=
  ("", some .errNotSupported)

/-- Append a header, modelling http.Header.Add. -/
def headerAdd (hs : List (String × String)) (k v : String) : List (String × String) :=
  hs ++ [(k, v)]

/-- Replace a header, modelling http.Header.Set: all previous values for
the key are dropped and the single new value installed. -/
def headerSet (hs : List (String × String)) (k v : String) : List (String × String) :=
  hs.filter (fun p => p.1 ≠ k) ++ [(k, v)]

/-- First value for a header key, modelling http.Header.Get. -/
def headerGet : List (String × String) → String → Option String
  | [], _ => none
  | (k, v) :: rest, key => if k = key then some v else headerGet rest key

/-- newRequest from dropbox.go: a POST with the Authorization and
Content-Type headers, and the Dropbox-API-Arg header when arg is
non-empty. http.NewRequest cannot fail on the adapter's fixed valid URLs,
so it is modelled as total. -/
def DropboxImpl.newRequest (d : DropboxImpl) (path : String) (body : Option String) (arg : String) : HttpRequest :=
  let hs := headerAdd (headerAdd [] "Authorization" ("Bearer " ++ d.token)) "Content-Type" "application/octet-stream"
  let hs := if arg ≠ "" then headerAdd hs "Dropbox-API-Arg" arg else hs
  ⟨"POST", path, hs, body⟩

/-- doRequest from dropbox.go: run the round trip; on HTTP 409 decode the
body into DropboxAPIError (a decoding failure is returned as the decode
error itself), on any other non-200 status build a formatted error, and
on 200 return the body. -/
def DropboxImpl.doRequest (_d : DropboxImpl) (transport : Transport) (req : HttpRequest) : Except GoError RespBody :=
  match transport req with
  | .failure => .error .transportFailure
  | .response resp =>
    if resp.statusCode = 409 then
      match unmarshalDropboxAPIError resp.body with
      | .error _ => .error .jsonDecode
      | .ok dbxErr => .error (.dropboxAPI dbxErr)
    else if resp.statusCode ≠ 200 then
      .error (.httpStatus resp.statusCode resp.body)
    else
      .ok resp.body

def downloadURL : String := "https://content.dropboxapi.com/2/files/download"
def uploadURL : String := "https://content.dropboxapi.com/2/files/upload"
def deleteURL : String := "https://api.dropboxapi.com/2/files/delete_v2"
def listFolderURL : String := "https://api.dropboxapi.com/2/files/list_folder"
def listContinueURL : String := "https://api.dropboxapi.com/2/files/list_folder/continue"

/-- json.Marshal of the Download argument struct: an object with the
single string field path holding "/" plus the reference. -/
def downloadArg (ref : String) : String :=
  "\x7b\"path\":" ++ jsonQuote ("/" ++ ref) ++ "\x7d"

/-- The request Download hands to the transport. -/
def DropboxImpl.downloadRequest (d : DropboxImpl) (ref : String) : HttpRequest :=
  d.newRequest downloadURL none (downloadArg ref)

/-- Download from dropbox.go: run the request; on a DropboxAPIError whose
StatusCode reports 404 return a NotExist error, on any other failure an
IO error, and on success the body. -/
def DropboxImpl.Download (d : DropboxImpl) (transport : Transport) (ref : String) : Except UpspinError RespBody :=
  match d.doRequest transport (d.downloadRequest ref) with
  | .ok data => .ok data
  | .error e =>
    match e with
    | .dropboxAPI derr =>
      if derr.statusCode = 404 then .error ⟨downloadOp, .notExist, .dropboxAPI derr⟩
      else .error ⟨downloadOp, .io, .dropboxAPI derr⟩
    | _ => .error ⟨downloadOp, .io, e⟩

/-- json.Marshal of the Put argument struct, in declared field order:
path "/" plus the reference, mode overwrite, autorename true, mute false. -/
def putArg (ref : String) : String :=
  "\x7b\"path\":" ++ jsonQuote ("/" ++ ref) ++
    ",\"mode\":\"overwrite\",\"autorename\":true,\"mute\":false\x7d"

/-- The request Put hands to the transport: the raw contents as body. -/
def DropboxImpl.putRequest (d : DropboxImpl) (ref contents : String) : HttpRequest :=
  d.newRequest uploadURL (some contents) (putArg ref)

/-- Put from dropbox.go: run the upload request; any failure becomes an
IO error. -/
def DropboxImpl.Put (d : DropboxImpl) (transport : Transport) (ref contents : String) : Except UpspinError Unit :=
  match d.doRequest transport (d.putRequest ref contents) with
  | .ok _ => .ok ()
  | .error e => .error ⟨putOp, .io, e⟩

/-- json.Marshal of the Delete argument struct. -/
def deleteArg (ref : String) : String :=
  "\x7b\"path\":" ++ jsonQuote ("/" ++ ref) ++ "\x7d"

/-- The request Delete hands to the transport: the JSON argument is the
body, and Content-Type is reset to application/json. -/
def DropboxImpl.deleteRequest (d : DropboxImpl) (ref : String) : HttpRequest :=
  let req := d.newRequest deleteURL (some (deleteArg ref)) ""
  { req with headers := headerSet req.headers "Content-Type" "application/json" }

/-- Delete from dropbox.go: run the delete request; any failure becomes
an IO error. -/
def DropboxImpl.Delete (d : DropboxImpl) (transport : Transport) (ref : String) : Except UpspinError Unit :=
  match d.doRequest transport (d.deleteRequest ref) with
  | .ok _ => .ok ()
  | .error e => .error ⟨deleteOp, .io, e⟩

/-- Initial value of the package variable maxResults: the number of
references returned per List call, overridable in tests. -/
def maxResults : Int := 1000

/-- An entry of the List result, modelling upspin.ListRefsItem. -/
structure ListRefsItem where
  ref : String
  size : Int

/-- The endpoint List posts to: list_folder for an empty cursor token,
list_folder/continue otherwise. -/
def listURL (token : String) : String :=
  if token = "" then listFolderURL else listContinueURL

/-- json.Marshal of the List argument: for an empty token the object with
path "" and the limit, otherwise the object with the cursor. -/
def listArg (limit : Int) (token : String) : String :=
  if token = "" then "\x7b\"path\":\"\",\"limit\":" ++ toString limit ++ "\x7d"
  else "\x7b\"cursor\":" ++ jsonQuote token ++ "\x7d"

/-- The request List hands to the transport: the JSON argument is the
body, and Content-Type is reset to application/json. -/
def DropboxImpl.listRequest (d : DropboxImpl) (limit : Int) (token : String) : HttpRequest :=
  let req := d.newRequest (listURL token) (some (listArg limit token)) ""
  { req with headers := headerSet req.headers "Content-Type" "application/json" }

/-- List from dropbox.go, with the current value of the maxResults
variable passed explicitly. Errors are returned unwrapped, as in the
source. On success the entries are mapped in order to ListRefsItem and
the next token is the response cursor only when has_more is set. -/
def DropboxImpl.List (d : DropboxImpl) (transport : Transport) (limit : Int) (token : String) :
    Except GoError (List ListRefsItem × String) :=
  match d.doRequest transport (d.listRequest limit token) with
  | .error e => .error e
  | .ok body =>
    match unmarshalListFolderResult body with
    | .error _ => .error .jsonDecode
    | .ok objs =>
      let refs := objs.items.map (fun item => ListRefsItem.mk item.name item.size)
      let nextToken := if objs.more then objs.nextPageToken else ""
      .ok (refs, nextToken)

/-- Close from dropbox.go: not yet implemented, a no-op. -/
def DropboxImpl.Close (_d : DropboxImpl) : Unit := ()

/-- A concrete adapter instance for the concrete evaluations below. -/
def dbx0 : DropboxImpl := ⟨"tok"⟩

/-- A transport whose round trip always fails (Do or body read error). -/
def trFail : Transport := fun _ => .failure

/-- A 409 body whose error summary carries the not_found signature. -/
def notFoundBody : RespBody := .json (.obj [("error_summary", .str "path/not_found/..")])

def trNotFound : Transport := fun _ => .response ⟨409, notFoundBody⟩

/-- A 409 body whose error summary does not mention not_found. -/
def conflictBody : RespBody := .json (.obj [("error_summary", .str "path/conflict/file")])

def trConflict : Transport := fun _ => .response ⟨409, conflictBody⟩

/-- A 409 body that does not decode into DropboxAPIError. -/
def badConflictBody : RespBody := .json (.str "oops")

def trBadConflict : Transport := fun _ => .response ⟨409, badConflictBody⟩

def tr500 : Transport := fun _ => .response ⟨500, .malformed "boom"⟩

/-- A 200 response whose body is opaque blob bytes. -/
def trOk : Transport := fun _ => .response ⟨200, .malformed "payload"⟩

/-- A list_folder response with unsorted entries, a duplicate, a cursor
and more pages to come. -/
def listBody : RespBody := .json (.obj
  [("entries", .arr
    [.obj [("name", .str "b"), ("size", .num 2)],
     .obj [("name", .str "a"), ("size", .num 1)],
     .obj [("name", .str "b"), ("size", .num 2)]]),
   ("cursor", .str "CUR"),
   ("has_more", .bool true)])

def trList : Transport := fun _ => .response ⟨200, listBody⟩

/-- A list_folder response for an empty namespace: no entries, an empty
cursor and no further pages. -/
def emptyListBody : RespBody := .json (.obj
  [("entries", .arr []), ("cursor", .str ""), ("has_more", .bool false)])

def trEmptyList : Transport := fun _ => .response ⟨200, emptyListBody⟩

/-- Appending to a non-empty string yields a non-empty string. -/
theorem string_append_ne_empty_left (s t : String) (h : s ≠ "") : s ++ t ≠ "" := by
  intro he
  apply h
  cases s with
  | mk ds =>
    cases t with
    | mk dt =>
      have hd : ds ++ dt = ([] : List Char) := congrArg String.data he
      have h1 : ds = [] := (List.append_eq_nil.mp hd).1
      rw [h1]

/-- C1 (counterexample): at reference x the Dropbox-API-Arg header Put
builds carries mute false, not mute true as the claim states; the second
conjunct shows the actual header value. -/
theorem put_mute_true_refuted :
    headerGet ((DropboxImpl.mk "tok").putRequest "x" "data").headers "Dropbox-API-Arg" ≠
      some "\x7b\"path\":\"/x\",\"mode\":\"overwrite\",\"autorename\":true,\"mute\":true\x7d" ∧
    headerGet ((DropboxImpl.mk "tok").putRequest "x" "data").headers "Dropbox-API-Arg" =
      some "\x7b\"path\":\"/x\",\"mode\":\"overwrite\",\"autorename\":true,\"mute\":false\x7d" := by
  constructor <;> decide

/-- C1 (amended): for every reference and contents, Put builds a POST to
the files/upload content endpoint whose raw body is the contents,
unmodified, and whose JSON argument header has path "/" plus the
reference, mode overwrite, autorename true and mute false. -/
theorem put_builds_upload_request (d : DropboxImpl) (ref contents : String) :
    (d.putRequest ref contents).method = "POST" ∧
    (d.putRequest ref contents).url = "https://content.dropboxapi.com/2/files/upload" ∧
    (d.putRequest ref contents).body = some contents ∧
    headerGet (d.putRequest ref contents).headers "Dropbox-API-Arg" =
      some ("\x7b\"path\":" ++ jsonQuote ("/" ++ ref) ++
        ",\"mode\":\"overwrite\",\"autorename\":true,\"mute\":false\x7d") := by
  have harg : putArg ref ≠ "" := by
    unfold putArg
    apply string_append_ne_empty_left
    apply string_append_ne_empty_left
    decide
  refine ⟨rfl, rfl, rfl, ?_⟩
  simp [DropboxImpl.putRequest, DropboxImpl.newRequest, harg, headerAdd, headerGet, putArg]

/-- C2: Download classifies failures — a transport failure is an IO
error; a 409 whose decoded error summary contains not_found is a
NotExist error; a 409 whose summary lacks not_found, a 409 whose body
does not decode, and every other non-200 status are IO errors. -/
theorem download_error_classification (d : DropboxImpl) (tr : Transport) (ref : String) :
    (tr (d.downloadRequest ref) = .failure →
      d.Download tr ref = .error ⟨downloadOp, .io, .transportFailure⟩) ∧
    (∀ body e, tr (d.downloadRequest ref) = .response ⟨409, body⟩ →
      unmarshalDropboxAPIError body = .ok e →
      strContains e.errorSummary "not_found" = true →
      d.Download tr ref = .error ⟨downloadOp, .notExist, .dropboxAPI e⟩) ∧
    (∀ body e, tr (d.downloadRequest ref) = .response ⟨409, body⟩ →
      unmarshalDropboxAPIError body = .ok e →
      strContains e.errorSummary "not_found" = false →
      d.Download tr ref = .error ⟨downloadOp, .io, .dropboxAPI e⟩) ∧
    (∀ body, tr (d.downloadRequest ref) = .response ⟨409, body⟩ →
      unmarshalDropboxAPIError body = .error () →
      d.Download tr ref = .error ⟨downloadOp, .io, .jsonDecode⟩) ∧
    (∀ st body, tr (d.downloadRequest ref) = .response ⟨st, body⟩ → st ≠ 409 → st ≠ 200 →
      d.Download tr ref = .error ⟨downloadOp, .io, .httpStatus st body⟩) := by
  refine ⟨?_, ?_, ?_, ?_, ?_⟩
  · intro h
    simp [DropboxImpl.Download, DropboxImpl.doRequest, h]
  · intro body e h hu hc
    simp [DropboxImpl.Download, DropboxImpl.doRequest, h, hu, DropboxAPIError.statusCode, hc]
  · intro body e h hu hc
    simp [DropboxImpl.Download, DropboxImpl.doRequest, h, hu, DropboxAPIError.statusCode, hc]
  · intro body h hu
    simp [DropboxImpl.Download, DropboxImpl.doRequest, h, hu]
  · intro st body h h409 h200
    simp [DropboxImpl.Download, DropboxImpl.doRequest, h, h409, h200]

/-- C2 (witness): concrete transports exercising each classification. -/
theorem download_error_classification_witness :
    dbx0.Download trFail "r" = .error ⟨downloadOp, .io, .transportFailure⟩ ∧
    dbx0.Download trNotFound "r" = .error ⟨downloadOp, .notExist, .dropboxAPI ⟨"path/not_found/.."⟩⟩ ∧
    dbx0.Download trConflict "r" = .error ⟨downloadOp, .io, .dropboxAPI ⟨"path/conflict/file"⟩⟩ ∧
    dbx0.Download trBadConflict "r" = .error ⟨downloadOp, .io, .jsonDecode⟩ ∧
    dbx0.Download tr500 "r" = .error ⟨downloadOp, .io, .httpStatus 500 (.malformed "boom")⟩ :=
  ⟨(download_error_classification dbx0 trFail "r").1 rfl,
   (download_error_classification dbx0 trNotFound "r").2.1 notFoundBody ⟨"path/not_found/.."⟩ rfl rfl (by decide),
   (download_error_classification dbx0 trConflict "r").2.2.1 conflictBody ⟨"path/conflict/file"⟩ rfl rfl (by decide),
   (download_error_classification dbx0 trBadConflict "r").2.2.2.1 badConflictBody rfl rfl,
   (download_error_classification dbx0 tr500 "r").2.2.2.2 500 (.malformed "boom") rfl (by decide) (by decide)⟩

/-- C6: a 200 response makes Download return the full response body,
unmodified. -/
theorem download_success_returns_body (d : DropboxImpl) (tr : Transport) (ref : String) (body : RespBody)
    (h : tr (d.downloadRequest ref) = .response ⟨200, body⟩) :
    d.Download tr ref = .ok body := by
  simp [DropboxImpl.Download, DropboxImpl.doRequest, h]

/-- C6 (witness): a concrete 200 round trip returns the body verbatim. -/
theorem download_success_returns_body_witness :
    dbx0.Download trOk "r" = .ok (.malformed "payload") :=
  download_success_returns_body dbx0 trOk "r" (.malformed "payload") rfl

/-- C10: a 409 whose body does not decode into the error_summary shape
makes doRequest return the decode error rather than a DropboxAPIError,
so Download classifies it as IO, never as NotExist. -/
theorem download_unparseable_conflict_is_io (d : DropboxImpl) (tr : Transport) (ref : String) (body : RespBody)
    (h : tr (d.downloadRequest ref) = .response ⟨409, body⟩)
    (hb : unmarshalDropboxAPIError body = .error ()) :
    d.doRequest tr (d.downloadRequest ref) = .error .jsonDecode ∧
    d.Download tr ref = .error ⟨downloadOp, .io, .jsonDecode⟩ := by
  constructor
  · simp [DropboxImpl.doRequest, h, hb]
  · simp [DropboxImpl.Download, DropboxImpl.doRequest, h, hb]

/-- C10 (witness): a concrete 409 with a non-object JSON body. -/
theorem download_unparseable_conflict_is_io_witness :
    dbx0.doRequest trBadConflict (dbx0.downloadRequest "r") = .error .jsonDecode ∧
    dbx0.Download trBadConflict "r" = .error ⟨downloadOp, .io, .jsonDecode⟩ :=
  download_unparseable_conflict_is_io dbx0 trBadConflict "r" badConflictBody rfl rfl

/-- C3 (counterexample): an options bag holding the token key with the
empty string is accepted by New, contrary to the claim that an empty
token fails construction. -/
theorem new_accepts_empty_token :
    (StorageOpts.mk [(apiToken, "")]).opts.lookup apiToken = some "" ∧
    New (StorageOpts.mk [(apiToken, "")]) = .ok ⟨""⟩ :=
  ⟨rfl, rfl⟩

/-- C3 (amended): New fails with an invalid-configuration error exactly
when the token option key is missing; any present value, the empty
string included, yields an adapter instance. No transport is involved,
so construction performs no network call. -/
theorem new_requires_token_option (o : StorageOpts) :
    (o.opts.lookup apiToken = none →
      New o = .error ⟨newOp, .invalid, .message "\"token\" option is required"⟩) ∧
    (∀ tok, o.opts.lookup apiToken = some tok → New o = .ok ⟨tok⟩) := by
  constructor
  · intro h
    unfold New
    rw [h]
    rfl
  · intro tok h
    unfold New
    rw [h]

/-- C3 (witness): New at a bag without the key and at a bag with it. -/
theorem new_requires_token_option_witness :
    New (StorageOpts.mk []) = .error ⟨newOp, .invalid, .message "\"token\" option is required"⟩ ∧
    New (StorageOpts.mk [(apiToken, "tok")]) = .ok ⟨"tok"⟩ :=
  ⟨(new_requires_token_option ⟨[]⟩).1 rfl,
   (new_requires_token_option ⟨[(apiToken, "tok")]⟩).2 "tok" rfl⟩

/-- C4: with an empty cursor token List posts to list_folder with body
path empty and the limit, whose package default maxResults is 1000; with
a non-empty token it posts to list_folder/continue with the cursor. -/
theorem list_request_shape (d : DropboxImpl) (limit : Int) (token : String) :
    maxResults = 1000 ∧
    (d.listRequest limit token).method = "POST" ∧
    (token = "" →
      (d.listRequest limit token).url = "https://api.dropboxapi.com/2/files/list_folder" ∧
      (d.listRequest limit token).body =
        some ("\x7b\"path\":\"\",\"limit\":" ++ toString limit ++ "\x7d")) ∧
    (token ≠ "" →
      (d.listRequest limit token).url = "https://api.dropboxapi.com/2/files/list_folder/continue" ∧
      (d.listRequest limit token).body =
        some ("\x7b\"cursor\":" ++ jsonQuote token ++ "\x7d")) := by
  refine ⟨rfl, rfl, ?_, ?_⟩
  · intro h
    subst h
    constructor <;> rfl
  · intro h
    constructor
    · simp [DropboxImpl.listRequest, DropboxImpl.newRequest, listURL, h, listContinueURL]
    · simp [DropboxImpl.listRequest, DropboxImpl.newRequest, listArg, h]

/-- C4 (witness): the first-page request at the default limit and the
continuation request at cursor CUR. -/
theorem list_request_shape_witness :
    (dbx0.listRequest 1000 "").url = "https://api.dropboxapi.com/2/files/list_folder" ∧
    (dbx0.listRequest 1000 "").body =
      some ("\x7b\"path\":\"\",\"limit\":" ++ toString (1000 : Int) ++ "\x7d") ∧
    (dbx0.listRequest 1000 "CUR").url = "https://api.dropboxapi.com/2/files/list_folder/continue" ∧
    (dbx0.listRequest 1000 "CUR").body =
      some ("\x7b\"cursor\":" ++ jsonQuote "CUR" ++ "\x7d") :=
  ⟨((list_request_shape dbx0 1000 "").2.2.1 rfl).1,
   ((list_request_shape dbx0 1000 "").2.2.1 rfl).2,
   ((list_request_shape dbx0 1000 "CUR").2.2.2 (by decide)).1,
   ((list_request_shape dbx0 1000 "CUR").2.2.2 (by decide)).2⟩

/-- C5 (counterexample): on an empty namespace the service answers with
has_more false and an empty cursor; List returns an empty next token,
which equals the response cursor even though has_more is false, so the
claimed equivalence fails at this input. -/
theorem list_cursor_iff_refuted :
    unmarshalListFolderResult emptyListBody = .ok ⟨[], "", false⟩ ∧
    dbx0.List trEmptyList 1000 "" = .ok ([], "") ∧
    ¬ ((("" : String) = "") ↔ false = true) := by
  refine ⟨rfl, rfl, ?_⟩
  simp

/-- C5 (amended): on a successful List whose response decodes, the next
cursor token is the response cursor when has_more is true and the empty
string when has_more is false — the latter regardless of the cursor the
service returned, though the two coincide when that cursor is itself
empty. -/
theorem list_next_token (d : DropboxImpl) (tr : Transport) (limit : Int) (token : String)
    (body : RespBody) (r : ListFolderResult)
    (h : tr (d.listRequest limit token) = .response ⟨200, body⟩)
    (hr : unmarshalListFolderResult body = .ok r) :
    ∃ refs, d.List tr limit token = .ok (refs, if r.more then r.nextPageToken else "") := by
  refine ⟨r.items.map (fun item => ListRefsItem.mk item.name item.size), ?_⟩
  simp [DropboxImpl.List, DropboxImpl.doRequest, h, hr]

/-- C5 (witness): a page with has_more true propagates the cursor CUR. -/
theorem list_next_token_witness :
    ∃ refs, dbx0.List trList 1000 "" = .ok (refs, "CUR") :=
  list_next_token dbx0 trList 1000 "" listBody
    ⟨[⟨"b", 2⟩, ⟨"a", 1⟩, ⟨"b", 2⟩], "CUR", true⟩ rfl rfl

/-- C7: on a successful List whose response decodes, the returned
entries are exactly the response entries mapped element-wise to
reference and size, in the service's order, with no re-sorting,
filtering or deduplication. -/
theorem list_entries_in_order (d : DropboxImpl) (tr : Transport) (limit : Int) (token : String)
    (body : RespBody) (r : ListFolderResult)
    (h : tr (d.listRequest limit token) = .response ⟨200, body⟩)
    (hr : unmarshalListFolderResult body = .ok r) :
    ∃ next, d.List tr limit token =
      .ok (r.items.map (fun item => ListRefsItem.mk item.name item.size), next) := by
  refine ⟨if r.more then r.nextPageToken else "", ?_⟩
  simp [DropboxImpl.List, DropboxImpl.doRequest, h, hr]

/-- C7 (witness): entries arrive unsorted with a duplicate and come back
in the same order, duplicate preserved. -/
theorem list_entries_in_order_witness :
    ∃ next, dbx0.List trList 1000 "" =
      .ok ([ListRefsItem.mk "b" 2, ListRefsItem.mk "a" 1, ListRefsItem.mk "b" 2], next) :=
  list_entries_in_order dbx0 trList 1000 "" listBody
    ⟨[⟨"b", 2⟩, ⟨"a", 1⟩, ⟨"b", 2⟩], "CUR", true⟩ rfl rfl

/-- C8: Delete surfaces every failed round trip as an IO error: a
transport failure, any non-200 status, and in particular a 409 carrying
the not_found signature, which is never suppressed into success. -/
theorem delete_error_classification (d : DropboxImpl) (tr : Transport) (ref : String) :
    (tr (d.deleteRequest ref) = .failure →
      d.Delete tr ref = .error ⟨deleteOp, .io, .transportFailure⟩) ∧
    (∀ st body, tr (d.deleteRequest ref) = .response ⟨st, body⟩ → st ≠ 200 →
      ∃ e, d.Delete tr ref = .error ⟨deleteOp, .io, e⟩) ∧
    (∀ body e, tr (d.deleteRequest ref) = .response ⟨409, body⟩ →
      unmarshalDropboxAPIError body = .ok e →
      d.Delete tr ref = .error ⟨deleteOp, .io, .dropboxAPI e⟩) := by
  refine ⟨?_, ?_, ?_⟩
  · intro h
    simp [DropboxImpl.Delete, DropboxImpl.doRequest, h]
  · intro st body h hne
    by_cases h409 : st = 409
    · subst h409
      cases hu : unmarshalDropboxAPIError body with
      | error u =>
        exact ⟨.jsonDecode, by simp [DropboxImpl.Delete, DropboxImpl.doRequest, h, hu]⟩
      | ok e =>
        exact ⟨.dropboxAPI e, by simp [DropboxImpl.Delete, DropboxImpl.doRequest, h, hu]⟩
    · exact ⟨.httpStatus st body, by simp [DropboxImpl.Delete, DropboxImpl.doRequest, h, h409, hne]⟩
  · intro body e h hu
    simp [DropboxImpl.Delete, DropboxImpl.doRequest, h, hu]

/-- C8 (witness): a failed transport, a 500 status and a not_found 409
each make Delete fail with an IO error. -/
theorem delete_error_classification_witness :
    dbx0.Delete trFail "r" = .error ⟨deleteOp, .io, .transportFailure⟩ ∧
    (∃ e, dbx0.Delete tr500 "r" = .error ⟨deleteOp, .io, e⟩) ∧
    dbx0.Delete trNotFound "r" = .error ⟨deleteOp, .io, .dropboxAPI ⟨"path/not_found/.."⟩⟩ :=
  ⟨(delete_error_classification dbx0 trFail "r").1 rfl,
   (delete_error_classification dbx0 tr500 "r").2.1 500 (.malformed "boom") rfl (by decide),
   (delete_error_classification dbx0 trNotFound "r").2.2 notFoundBody ⟨"path/not_found/.."⟩ rfl rfl⟩

/-- C9: LinkBase always returns the empty base string together with the
not-supported error, for every adapter instance. -/
theorem linkBase_always_not_supported (d : DropboxImpl) :
    d.LinkBase = ("", some GoError.errNotSupported) := rfl
